import Mathlib

/-!
# memsafi — a shallow embedding of the LD_PRELOAD allocation profiler

This file embeds the core of the memsafi library (`src/include/library.h`,
`src/src/library.cpp`) in Lean 4 and proves properties of the embedding.

The modelled pieces:

* `SafiStats` — the statistics store: eight `std::atomic<int64_t>` counters
  plus the `m_disable_print` latch, with its `log_malloc`, `log_calloc`,
  `log_realloc`, `log_free`, `log_alloc_helper`, `disablePrint` and
  `isPrintEnabled` members. The properties under study are single-threaded,
  so the atomics are modelled as plain integer fields updated sequentially,
  in the statement order of the C++ members. The counters are `int64_t`
  and come in two renditions: the `log_*` members accumulate in unbounded
  `Int` (an idealization adequate for the claims whose truth does not
  depend on counter overflow), and the `log_*W` members (`applyOpsW`)
  apply the two's-complement wraparound of `std::atomic<int64_t>` to
  every update (`wrap64`) — the exact semantics, used where overflow is
  load-bearing (the peak invariant). The `size_t → int64_t` conversion
  applied to every argument (`toInt64`) and the wrapping `size_t`
  subtraction performed by the `realloc` wrapper (`sub64`) are modelled
  exactly in both, since the realloc accounting relies on that
  wraparound to add a negative delta.
* `World` + `RealHeap` — the interposition layer: the wrapper functions
  `malloc`, `calloc`, `realloc`, `free` from `library.cpp`, over a state
  holding the `SafiControl` resolution flags, the statistics, the bootstrap
  buffer offset and a byte-addressed memory, with the real glibc heap
  supplied as an oracle (`RealHeap`). A fatal `exit(1)` (bootstrap-buffer
  exhaustion) is modelled as `none`.
* `DaemonPhase` / `daemonStep` — the reporting thread
  `__print_safi_stats` as a small-step loop state machine.
* `scaleGo` / `renderSize` — the unit-scaling loop of the `print_size`
  lambda inside `SafiStats::print`.
-/

/-- Conversion of a `size_t` value (a natural, reduced mod `2^64`) to the
`int64_t` it becomes when added to one of the `std::atomic<int64_t>`
counters: two's-complement reinterpretation. -/
def toInt64 (n : Nat) : Int :=
  if n % 2 ^ 64 < 2 ^ 63 then ((n % 2 ^ 64 : Nat) : Int)
  else ((n % 2 ^ 64 : Nat) : Int) - 2 ^ 64

/-- Wrapping `size_t` subtraction, as in
`malloc_usable_size(new_ptr) - old_size` in the `realloc` wrapper. -/
def sub64 (a b : Nat) : Nat :=
  (a + (2 ^ 64 - b % 2 ^ 64)) % 2 ^ 64

/-- Wrapping `size_t` multiplication, as in `num * size` in the `calloc`
wrapper's fallback path. -/
def mul64 (a b : Nat) : Nat :=
  (a * b) % 2 ^ 64

/-- Two's-complement wraparound of an `int64_t` store: the value an
`std::atomic<int64_t>` holds after an arithmetic update whose ideal
result is `z`. -/
def wrap64 (z : Int) : Int :=
  (z + 2 ^ 63) % 2 ^ 64 - 2 ^ 63

/-- The statistics store `SafiStats` of `library.h`: four byte counters,
four operation counters (all `std::atomic<int64_t>`), and the
`m_disable_print` latch. (`m_enable_trace` is declared in the source but
never read; it is omitted.) -/
structure SafiStats where
  m_reserved : Int
  m_total_reserved : Int
  m_real_peak : Int
  m_freed : Int
  m_num_mallocs : Int
  m_num_callocs : Int
  m_num_reallocs : Int
  m_num_frees : Int
  m_disable_print : Bool
deriving DecidableEq, Repr

/-- The zero-initialized store: every counter `{0}`, printing enabled. -/
def SafiStats.init : SafiStats :=
  { m_reserved := 0
    m_total_reserved := 0
    m_real_peak := 0
    m_freed := 0
    m_num_mallocs := 0
    m_num_callocs := 0
    m_num_reallocs := 0
    m_num_frees := 0
    m_disable_print := false }

/-- `SafiStats::log_alloc_helper(size)`: `m_reserved += size;
m_total_reserved += size; m_real_peak = max(m_real_peak, m_reserved)`,
with the updated `m_reserved` read back for the peak computation.
Idealized rendition: the sums are taken in unbounded `Int`, dropping the
`int64_t` wraparound; `log_alloc_helperW` below is the exact-wraparound
form. -/
def SafiStats.log_alloc_helper (s : SafiStats) (size : Nat) : SafiStats :=
  let r := s.m_reserved + toInt64 size
  { s with
    m_reserved := r
    m_total_reserved := s.m_total_reserved + toInt64 size
    m_real_peak := max s.m_real_peak r }

/-- `SafiStats::log_malloc(size)`: helper, then `++m_num_mallocs`. -/
def SafiStats.log_malloc (s : SafiStats) (size : Nat) : SafiStats :=
  let s1 := s.log_alloc_helper size
  { s1 with m_num_mallocs := s1.m_num_mallocs + 1 }

/-- `SafiStats::log_calloc(size)`: helper, then `++m_num_callocs`. -/
def SafiStats.log_calloc (s : SafiStats) (size : Nat) : SafiStats :=
  let s1 := s.log_alloc_helper size
  { s1 with m_num_callocs := s1.m_num_callocs + 1 }

/-- `SafiStats::log_realloc(size)`: helper, then `++m_num_reallocs`. -/
def SafiStats.log_realloc (s : SafiStats) (size : Nat) : SafiStats :=
  let s1 := s.log_alloc_helper size
  { s1 with m_num_reallocs := s1.m_num_reallocs + 1 }

/-- `SafiStats::log_free(size)`: `m_reserved -= size; m_freed += size;
++m_num_frees`. Idealized rendition in unbounded `Int`, dropping the
`int64_t` wraparound; `log_freeW` below is the exact-wraparound form. -/
def SafiStats.log_free (s : SafiStats) (size : Nat) : SafiStats :=
  { s with
    m_reserved := s.m_reserved - toInt64 size
    m_freed := s.m_freed + toInt64 size
    m_num_frees := s.m_num_frees + 1 }

/-- `SafiStats::disablePrint()`: latch `m_disable_print = true`. -/
def SafiStats.disablePrint (s : SafiStats) : SafiStats :=
  { s with m_disable_print := true }

/-- `SafiStats::isPrintEnabled()`: despite its name, returns
`m_disable_print` itself. -/
def SafiStats.isPrintEnabled (s : SafiStats) : Bool :=
  s.m_disable_print

/-- One record operation applied to the statistics store: the `size_t`
argument each `log_*` member receives. -/
inductive SafiOp where
  | malloc (size : Nat)
  | calloc (size : Nat)
  | realloc (size : Nat)
  | free (size : Nat)
deriving DecidableEq, Repr

/-- Apply one record operation to the store. -/
def applyOp (s : SafiStats) : SafiOp → SafiStats
  | .malloc n => s.log_malloc n
  | .calloc n => s.log_calloc n
  | .realloc n => s.log_realloc n
  | .free n => s.log_free n

/-- Apply a sequence of record operations, oldest first. -/
def applyOps (s : SafiStats) (ops : List SafiOp) : SafiStats :=
  ops.foldl applyOp s

/-- A `free` whose `size_t` argument fits in a nonnegative `int64_t`
(`malloc_usable_size` never approaches `2^63`); other operations are
unconstrained. -/
def freeSizeOk : SafiOp → Bool
  | .free n => n < 2 ^ 63
  | _ => true

/-- `SafiStats::log_alloc_helper(size)` with the `int64_t` wraparound of
`std::atomic<int64_t>` applied to every arithmetic update — the exact
machine semantics of the same source lines. The peak update is a plain
`max` of two stored values, so it involves no wrap of its own. -/
def SafiStats.log_alloc_helperW (s : SafiStats) (size : Nat) : SafiStats :=
  let r := wrap64 (s.m_reserved + toInt64 size)
  { s with
    m_reserved := r
    m_total_reserved := wrap64 (s.m_total_reserved + toInt64 size)
    m_real_peak := max s.m_real_peak r }

/-- `SafiStats::log_malloc(size)`, exact-wraparound form. -/
def SafiStats.log_mallocW (s : SafiStats) (size : Nat) : SafiStats :=
  let s1 := s.log_alloc_helperW size
  { s1 with m_num_mallocs := wrap64 (s1.m_num_mallocs + 1) }

/-- `SafiStats::log_calloc(size)`, exact-wraparound form. -/
def SafiStats.log_callocW (s : SafiStats) (size : Nat) : SafiStats :=
  let s1 := s.log_alloc_helperW size
  { s1 with m_num_callocs := wrap64 (s1.m_num_callocs + 1) }

/-- `SafiStats::log_realloc(size)`, exact-wraparound form. -/
def SafiStats.log_reallocW (s : SafiStats) (size : Nat) : SafiStats :=
  let s1 := s.log_alloc_helperW size
  { s1 with m_num_reallocs := wrap64 (s1.m_num_reallocs + 1) }

/-- `SafiStats::log_free(size)`, exact-wraparound form. -/
def SafiStats.log_freeW (s : SafiStats) (size : Nat) : SafiStats :=
  { s with
    m_reserved := wrap64 (s.m_reserved - toInt64 size)
    m_freed := wrap64 (s.m_freed + toInt64 size)
    m_num_frees := wrap64 (s.m_num_frees + 1) }

/-- Apply one record operation to the store, exact-wraparound form. -/
def applyOpW (s : SafiStats) : SafiOp → SafiStats
  | .malloc n => s.log_mallocW n
  | .calloc n => s.log_callocW n
  | .realloc n => s.log_reallocW n
  | .free n => s.log_freeW n

/-- Apply a sequence of record operations, oldest first, exact-wraparound
form. -/
def applyOpsW (s : SafiStats) (ops : List SafiOp) : SafiStats :=
  ops.foldl applyOpW s

/-- An ideal `int64_t` value: within `[-2^63, 2^63)`. -/
def inRange64 (z : Int) : Bool :=
  decide (-2 ^ 63 ≤ z) && decide (z < 2 ^ 63)

/-- Overflow-freedom of the `reserved` counter along a run: after each
operation the ideal (unbounded) running value of `m_reserved` still fits
in `int64_t`, so no `+=`/`-=` on it ever wraps. True of every physically
realizable execution, whose live byte total is far below `2^63`. -/
def reservedOkFrom (s : SafiStats) : List SafiOp → Bool
  | [] => true
  | op :: t =>
    inRange64 (applyOp s op).m_reserved && reservedOkFrom (applyOp s op) t

/-- `TEMP_BUFFER_SIZE` of `library.cpp`: capacity of the bootstrap
buffer served by `__temp_malloc` while `dlsym` is pending. -/
def TEMP_BUFFER_SIZE : Nat := 80000

/-- `PRINT_FREQ_IN_SEC` of `library.cpp`: the reporting thread's sleep
interval, in seconds. -/
def PRINT_FREQ_IN_SEC : Nat := 5

/-- The real glibc heap, reached through the `orig_*` pointers captured by
`dlsym(RTLD_NEXT, ...)`, as an oracle: pointers are addresses (`Nat`, `0`
is the null pointer), and `musable` is `malloc_usable_size`. `tempBase` is
the address of the static `temp_buffer` array. -/
structure RealHeap where
  rmalloc : Nat → Nat
  rcalloc : Nat → Nat → Nat
  rrealloc : Nat → Nat → Nat
  musable : Nat → Nat
  tempBase : Nat

/-- The mutable global state of `library.cpp` that the wrapper functions
touch: the `SafiControl` fields (`pending_init` plus the resolved-ness of
each `orig_*` pointer — the pointers' values live in the `RealHeap`
oracle), the `SafiStats` store, `used_buffer_size`, and a byte-addressed
view of memory for the explicit `memset`/`memmove` the fallback paths
perform. Memory written by the real heap itself (e.g. real `calloc`
zeroing) is the oracle's business and is not tracked. -/
structure World where
  pending_init : Bool
  malloc_resolved : Bool
  calloc_resolved : Bool
  realloc_resolved : Bool
  free_resolved : Bool
  stats : SafiStats
  used_buffer_size : Nat
  mem : Nat → Nat

/-- `memset(p, v, n)` on the modelled memory. -/
def memset (mem : Nat → Nat) (p v n : Nat) : Nat → Nat :=
  fun a => if p ≤ a ∧ a < p + n then v else mem a

/-- `memmove(dst, src, n)` on the modelled memory. -/
def memmove (mem : Nat → Nat) (dst src n : Nat) : Nat → Nat :=
  fun a => if dst ≤ a ∧ a < dst + n then mem (src + (a - dst)) else mem a

/-- `__temp_malloc(size)`: under the buffer mutex, fail fatally (`none`)
if `used_buffer_size + size > TEMP_BUFFER_SIZE`, else hand out
`temp_buffer + used_buffer_size` and advance the offset. -/
def tempMalloc (h : RealHeap) (w : World) (size : Nat) :
    Option (World × Nat) :=
  if w.used_buffer_size + size > TEMP_BUFFER_SIZE then none
  else some
    ({ w with used_buffer_size := w.used_buffer_size + size },
      h.tempBase + w.used_buffer_size)

/-- `__init_safi` / `SafiControl::init`: capture all four `orig_*`
pointers via `dlsym` (the oracle always supplies them, so the fatal
all-null check passes); `pending_init` is raised and lowered inside the
call, so it is unchanged on return. The debug-environment read and the
spawn of the print thread have no effect on the modelled state. -/
def initSafi (w : World) : World :=
  { w with
    malloc_resolved := true
    calloc_resolved := true
    realloc_resolved := true
    free_resolved := true }

/-- The `malloc` wrapper: serve from the bootstrap buffer while
`pending_init`; otherwise lazily initialize if `orig_malloc` is still
null, call the real malloc, and record `malloc_usable_size` of the
result. -/
def mallocImpl (h : RealHeap) (w : World) (size : Nat) :
    Option (World × Nat) :=
  if w.pending_init then tempMalloc h w size
  else
    let w1 := if w.malloc_resolved then w else initSafi w
    let p := h.rmalloc size
    some ({ w1 with stats := w1.stats.log_malloc (h.musable p) }, p)

/-- The `calloc` wrapper: while `orig_calloc` is null, fall back to
`malloc(num * size)` followed by `memset(p, 0, num * size)` when the
result is non-null; otherwise call the real calloc and record
`malloc_usable_size` of the result. -/
def callocImpl (h : RealHeap) (w : World) (num size : Nat) :
    Option (World × Nat) :=
  if !w.calloc_resolved then
    match mallocImpl h w (mul64 num size) with
    | none => none
    | some (w1, p) =>
      if p ≠ 0 then
        some ({ w1 with mem := memset w1.mem p 0 (mul64 num size) }, p)
      else some (w1, p)
  else
    let p := h.rcalloc num size
    some ({ w with stats := w.stats.log_calloc (h.musable p) }, p)

/-- The `free` wrapper: a pointer inside `[temp_buffer, temp_buffer +
used_buffer_size]` returns immediately (bootstrap memory is never
reclaimed); otherwise lazily initialize if `orig_free` is still null,
record `malloc_usable_size(ptr)` as freed, and pass `ptr` to the real
free. The second component reports the pointer handed to the real free
(`none` when the real free is not called). -/
def freeImpl (h : RealHeap) (w : World) (ptr : Nat) : World × Option Nat :=
  if h.tempBase ≤ ptr ∧ ptr ≤ h.tempBase + w.used_buffer_size then (w, none)
  else
    let w1 := if w.free_resolved then w else initSafi w
    let size := h.musable ptr
    ({ w1 with stats := w1.stats.log_free size }, some ptr)

/-- The `realloc` wrapper: while `orig_realloc` is null, fall back to
`malloc(size)`, and when both the new and the old pointer are non-null
`memmove` `size` bytes and `free` the old pointer; otherwise capture
`malloc_usable_size(ptr)` before the real realloc, call it, and record
the wrapping `size_t` difference of the usable sizes after and before. -/
def reallocImpl (h : RealHeap) (w : World) (ptr size : Nat) :
    Option (World × Nat) :=
  if !w.realloc_resolved then
    match mallocImpl h w size with
    | none => none
    | some (w1, newp) =>
      if newp ≠ 0 ∧ ptr ≠ 0 then
        let w2 := { w1 with mem := memmove w1.mem newp ptr size }
        some ((freeImpl h w2 ptr).1, newp)
      else some (w1, newp)
  else
    let old := h.musable ptr
    let newp := h.rrealloc ptr size
    some
      ({ w with stats := w.stats.log_realloc (sub64 (h.musable newp) old) },
        newp)

/-- Pointer returned by a wrapper call (`none` when the call was fatal). -/
def ptrOf (r : Option (World × Nat)) : Option Nat :=
  r.map fun x => x.2

/-- `m_reserved` after a wrapper call. -/
def reservedOf (r : Option (World × Nat)) : Option Int :=
  r.map fun x => x.1.stats.m_reserved

/-- `m_total_reserved` after a wrapper call. -/
def totalReservedOf (r : Option (World × Nat)) : Option Int :=
  r.map fun x => x.1.stats.m_total_reserved

/-- `m_num_mallocs` after a wrapper call. -/
def numMallocsOf (r : Option (World × Nat)) : Option Int :=
  r.map fun x => x.1.stats.m_num_mallocs

/-- `m_num_callocs` after a wrapper call. -/
def numCallocsOf (r : Option (World × Nat)) : Option Int :=
  r.map fun x => x.1.stats.m_num_callocs

/-- The byte at address `a` after a wrapper call. -/
def memAt (r : Option (World × Nat)) (a : Nat) : Option Nat :=
  r.map fun x => x.1.mem a

/-- A deterministic test heap used to instantiate theorems on concrete
inputs: malloc always returns block 5000 (usable 96), realloc always
returns block 6000 (usable 256), block 2000 has usable size 64, the
bootstrap buffer sits at address 1000. -/
def testHeap : RealHeap where
  rmalloc := fun _ => 5000
  rcalloc := fun _ _ => 5000
  rrealloc := fun _ _ => 6000
  musable := fun p =>
    if p = 5000 then 96 else if p = 6000 then 256 else
    if p = 2000 then 64 else 0
  tempBase := 1000

/-- A heap whose malloc fails on every request (returns null, usable size
of every block 0). -/
def failHeap : RealHeap where
  rmalloc := fun _ => 0
  rcalloc := fun _ _ => 0
  rrealloc := fun _ _ => 0
  musable := fun _ => 0
  tempBase := 1000

/-- Process start: nothing resolved, no initialization in progress, zero
statistics, empty bootstrap buffer, memory filled with a nonzero byte. -/
def startWorld : World where
  pending_init := false
  malloc_resolved := false
  calloc_resolved := false
  realloc_resolved := false
  free_resolved := false
  stats := SafiStats.init
  used_buffer_size := 0
  mem := fun _ => 1

/-- The state right after lazy initialization: all primitives resolved. -/
def readyWorld : World :=
  initSafi startWorld

/-- The bootstrap window: `dlsym` in flight (`pending_init`), nothing
resolved yet. -/
def bootWorld : World :=
  { startWorld with pending_init := true }

/-- The reporting thread `__print_safi_stats` as a loop state machine:
at `check` the loop condition `!safiStats.isPrintEnabled()` is read; a
surviving iteration sleeps `PRINT_FREQ_IN_SEC` seconds (`sleeping`) and
then calls `safiStats.print()` (`reporting`) before checking again;
`stopped` is the loop's exit, and is terminal. -/
inductive DaemonPhase where
  | check
  | sleeping
  | reporting
  | stopped
deriving DecidableEq, Repr

/-- One small step of the reporting thread against the current store. -/
def daemonStep (s : SafiStats) : DaemonPhase → DaemonPhase
  | .check => if s.isPrintEnabled then .stopped else .sleeping
  | .sleeping => .reporting
  | .reporting => .check
  | .stopped => .stopped

/-- The unit labels of the `print_size` lambda in `SafiStats::print`. -/
def sizeUnits : List String := ["B", "kB", "MB", "GB", "TB"]

/-- The scaling loop of `print_size`:
`for (i = 0; (size / 1024) > 0 && i < length - 1; i++) size /= 1024;`
with `length = 5` and C++ truncating `int64_t` division (`Int.tdiv`).
The loop body can run at most four times (the `i < 4` conjunct caps
`i`), so running the recursion on a fuel of `4` reproduces the loop
exactly. Returns the scaled value and the final unit index `i`. -/
def scaleGo : Nat → Int → Nat → Int × Nat
  | 0, size, i => (size, i)
  | fuel + 1, size, i =>
    if Int.tdiv size 1024 > 0 ∧ i < 4 then
      scaleGo fuel (Int.tdiv size 1024) (i + 1)
    else (size, i)

/-- `print_size` without the I/O: the value and unit label printed for a
byte count. -/
def renderSize (size : Int) : Int × String :=
  let r := scaleGo 4 size 0
  (r.1, sizeUnits.getD r.2 "B")

theorem reserved_sub_step (s : SafiStats) (op : SafiOp)
    (h : s.m_reserved = s.m_total_reserved - s.m_freed) :
    (applyOp s op).m_reserved =
      (applyOp s op).m_total_reserved - (applyOp s op).m_freed := by
  cases op <;>
    simp only [applyOp, SafiStats.log_malloc, SafiStats.log_calloc,
      SafiStats.log_realloc, SafiStats.log_free, SafiStats.log_alloc_helper] <;>
    omega

theorem reserved_sub_fold (ops : List SafiOp) (s : SafiStats)
    (h : s.m_reserved = s.m_total_reserved - s.m_freed) :
    (applyOps s ops).m_reserved =
      (applyOps s ops).m_total_reserved - (applyOps s ops).m_freed := by
  induction ops generalizing s with
  | nil => exact h
  | cons op t ih => exact ih (applyOp s op) (reserved_sub_step s op h)

/-- C1: For every finite sequence of allocate, zero-allocate, resize and
release record operations applied to the statistics store from its
zero-initialized state (single-threaded), `reserved == total_reserved -
freed` holds after each operation completes — every prefix of a sequence
being itself a sequence, the equation after an arbitrary sequence covers
the equation after each step. -/
theorem C1_reserved_eq_total_sub_freed (ops : List SafiOp) :
    (applyOps SafiStats.init ops).m_reserved =
      (applyOps SafiStats.init ops).m_total_reserved -
        (applyOps SafiStats.init ops).m_freed :=
  reserved_sub_fold ops SafiStats.init (by simp [SafiStats.init])

theorem toInt64_of_lt (n : Nat) (h : n < 2 ^ 63) : toInt64 n = n := by
  unfold toInt64
  split <;> omega

theorem toInt64_zero : toInt64 0 = 0 :=
  toInt64_of_lt 0 (by decide)

theorem peak_ge_step (s : SafiStats) (op : SafiOp)
    (hop : freeSizeOk op = true)
    (h : s.m_reserved ≤ s.m_real_peak) :
    (applyOp s op).m_reserved ≤ (applyOp s op).m_real_peak := by
  cases op with
  | malloc n =>
    simp only [applyOp, SafiStats.log_malloc, SafiStats.log_alloc_helper]
    exact le_max_right _ _
  | calloc n =>
    simp only [applyOp, SafiStats.log_calloc, SafiStats.log_alloc_helper]
    exact le_max_right _ _
  | realloc n =>
    simp only [applyOp, SafiStats.log_realloc, SafiStats.log_alloc_helper]
    exact le_max_right _ _
  | free n =>
    simp only [freeSizeOk, decide_eq_true_eq] at hop
    simp only [applyOp, SafiStats.log_free]
    rw [toInt64_of_lt n hop]
    omega

theorem peak_ge_fold (ops : List SafiOp) (s : SafiStats)
    (hops : ops.all freeSizeOk = true)
    (h : s.m_reserved ≤ s.m_real_peak) :
    (applyOps s ops).m_reserved ≤ (applyOps s ops).m_real_peak := by
  induction ops generalizing s with
  | nil => exact h
  | cons op t ih =>
    simp only [List.all_cons, Bool.and_eq_true] at hops
    exact ih (applyOp s op) hops.2 (peak_ge_step s op hops.1 h)

theorem wrap64_eq_self (z : Int) (h1 : -2 ^ 63 ≤ z) (h2 : z < 2 ^ 63) :
    wrap64 z = z := by
  unfold wrap64
  omega

theorem wrapped_tracks_step (su sw : SafiStats) (op : SafiOp)
    (hres : sw.m_reserved = su.m_reserved)
    (hpeak : sw.m_real_peak = su.m_real_peak)
    (hin : inRange64 (applyOp su op).m_reserved = true) :
    (applyOpW sw op).m_reserved = (applyOp su op).m_reserved ∧
      (applyOpW sw op).m_real_peak = (applyOp su op).m_real_peak := by
  simp only [inRange64, Bool.and_eq_true, decide_eq_true_eq] at hin
  cases op <;>
    simp only [applyOp, applyOpW, SafiStats.log_malloc,
      SafiStats.log_mallocW, SafiStats.log_calloc, SafiStats.log_callocW,
      SafiStats.log_realloc, SafiStats.log_reallocW, SafiStats.log_free,
      SafiStats.log_freeW, SafiStats.log_alloc_helper,
      SafiStats.log_alloc_helperW] at hin ⊢ <;>
    rw [hres, hpeak, wrap64_eq_self _ hin.1 hin.2] <;>
    exact ⟨rfl, rfl⟩

theorem wrapped_tracks_fold (ops : List SafiOp) (su sw : SafiStats)
    (hres : sw.m_reserved = su.m_reserved)
    (hpeak : sw.m_real_peak = su.m_real_peak)
    (hok : reservedOkFrom su ops = true) :
    (applyOpsW sw ops).m_reserved = (applyOps su ops).m_reserved ∧
      (applyOpsW sw ops).m_real_peak = (applyOps su ops).m_real_peak := by
  induction ops generalizing su sw with
  | nil => exact ⟨hres, hpeak⟩
  | cons op t ih =>
    simp only [reservedOkFrom, Bool.and_eq_true] at hok
    have hstep := wrapped_tracks_step su sw op hres hpeak hok.1
    exact ih (applyOp su op) (applyOpW sw op) hstep.1 hstep.2 hok.2

/-- C3 counterexample: with the `int64_t` wraparound of the counters
modelled exactly, the sequence allocate 2, allocate `2^63 - 1`,
release 2 — whose release size satisfies `freeSizeOk` — wraps
`m_reserved` past the int64 boundary up to `2^63 - 1` while
`m_real_peak` stays 2, so `peak >= reserved` fails after the release. -/
theorem C3_wrap_counterexample :
    ([SafiOp.malloc 2, SafiOp.malloc (2 ^ 63 - 1),
        SafiOp.free 2].all freeSizeOk = true) ∧
      (applyOpsW SafiStats.init [SafiOp.malloc 2,
          SafiOp.malloc (2 ^ 63 - 1), SafiOp.free 2]).m_reserved =
        2 ^ 63 - 1 ∧
      (applyOpsW SafiStats.init [SafiOp.malloc 2,
          SafiOp.malloc (2 ^ 63 - 1), SafiOp.free 2]).m_real_peak = 2 ∧
      ¬ ((applyOpsW SafiStats.init [SafiOp.malloc 2,
          SafiOp.malloc (2 ^ 63 - 1), SafiOp.free 2]).m_real_peak ≥
        (applyOpsW SafiStats.init [SafiOp.malloc 2,
          SafiOp.malloc (2 ^ 63 - 1), SafiOp.free 2]).m_reserved) := by
  decide

/-- C3 (amended): Starting from the zero-initialized statistics store
with the `int64_t` wraparound of `std::atomic<int64_t>` modelled
exactly, `peak >= reserved` holds after every completed record
operation — allocate, zero-allocate, resize with a possibly negative
delta, or release — in single-threaded execution, provided release
sizes are below `2^63` (nonnegative as `int64_t`) and the `reserved`
counter never overflows along the run (`reservedOkFrom`): under that
proviso the wrapped run coincides with the ideal one on `reserved` and
`peak`, where the invariant holds inductively. -/
theorem C3_peak_ge_reserved_wrapped (ops : List SafiOp)
    (hops : ops.all freeSizeOk = true)
    (hok : reservedOkFrom SafiStats.init ops = true) :
    (applyOpsW SafiStats.init ops).m_real_peak ≥
      (applyOpsW SafiStats.init ops).m_reserved := by
  have hb :=
    wrapped_tracks_fold ops SafiStats.init SafiStats.init rfl rfl hok
  rw [hb.1, hb.2]
  exact peak_ge_fold ops SafiStats.init hops (by simp [SafiStats.init])

/-- Witness for the amended C3 at the spec's own scenario: allocate 100
bytes, resize by 40, zero-allocate 80, then release 100 — no step can
overflow. -/
theorem C3_peak_ge_reserved_wrapped_witness :
    ([SafiOp.malloc 100, SafiOp.realloc 40, SafiOp.calloc 80,
        SafiOp.free 100].all freeSizeOk = true ∧
      reservedOkFrom SafiStats.init
        [SafiOp.malloc 100, SafiOp.realloc 40, SafiOp.calloc 80,
          SafiOp.free 100] = true) ∧
      (applyOpsW SafiStats.init
          [SafiOp.malloc 100, SafiOp.realloc 40, SafiOp.calloc 80,
            SafiOp.free 100]).m_real_peak ≥
        (applyOpsW SafiStats.init
            [SafiOp.malloc 100, SafiOp.realloc 40, SafiOp.calloc 80,
              SafiOp.free 100]).m_reserved :=
  ⟨⟨by decide, by decide⟩,
    C3_peak_ge_reserved_wrapped _ (by decide) (by decide)⟩

/-- C2 counterexample: `log_realloc` (the resize recorder) does add its
delta to `m_total_reserved` — recording a resize of 5 from the
zero-initialized store leaves `m_total_reserved = 5`, not 0. -/
theorem C2_realloc_adds_total_counterexample :
    (SafiStats.init.log_realloc 5).m_total_reserved = 5 ∧
      SafiStats.init.m_total_reserved = 0 := by
  constructor <;> decide

/-- C2 (amended): `record_resize(delta)` adds `delta` to `reserved` AND to
`total_reserved` (through the shared `log_alloc_helper`, exactly like
`record_allocate` and `record_zero_allocate`), then updates
`peak = max(peak, reserved)` and increments the resize counter; `freed`
is untouched. -/
theorem C2_realloc_effect (s : SafiStats) (n : Nat) :
    (s.log_realloc n).m_reserved = s.m_reserved + toInt64 n ∧
      (s.log_realloc n).m_total_reserved = s.m_total_reserved + toInt64 n ∧
      (s.log_realloc n).m_real_peak =
        max s.m_real_peak (s.m_reserved + toInt64 n) ∧
      (s.log_realloc n).m_num_reallocs = s.m_num_reallocs + 1 ∧
      (s.log_realloc n).m_freed = s.m_freed := by
  simp [SafiStats.log_realloc, SafiStats.log_alloc_helper]

/-- C4: Releasing a pointer that lies within the bootstrap arena's
occupied address range — the interval `[temp_buffer, temp_buffer +
used_buffer_size]` the `free` wrapper probes, which contains every
pointer `__temp_malloc` ever handed out — is a no-op: the state (hence
every statistics counter) is unchanged and the real free is never
called. -/
theorem C4_arena_free_noop (h : RealHeap) (w : World) (ptr : Nat)
    (h1 : h.tempBase ≤ ptr) (h2 : ptr ≤ h.tempBase + w.used_buffer_size) :
    freeImpl h w ptr = (w, none) := by
  simp [freeImpl, h1, h2]

/-- Witness for C4: freeing the first bootstrap pointer, at the base of
the buffer, in a world where 80 bootstrap bytes are in use. -/
theorem C4_arena_free_noop_witness :
    (testHeap.tempBase ≤ 1000 ∧
        1000 ≤ testHeap.tempBase +
          ({ startWorld with used_buffer_size := 80 }).used_buffer_size) ∧
      freeImpl testHeap { startWorld with used_buffer_size := 80 } 1000 =
        ({ startWorld with used_buffer_size := 80 }, none) :=
  ⟨⟨by decide, by decide⟩,
    C4_arena_free_noop testHeap _ 1000 (by decide) (by decide)⟩

/-- C5: When the real malloc returns the null pointer, the `malloc`
wrapper propagates null unchanged to the caller, and — because
`malloc_usable_size(NULL)` is 0 — the byte counters `reserved` and
`total_reserved` are unchanged (the null result is not recorded as a
successful allocation of its nominal size). Stated outside the bootstrap
window (`pending_init = false`), where the real malloc is reached. -/
theorem C5_null_malloc_passthrough (h : RealHeap) (w : World) (size : Nat)
    (hp : w.pending_init = false) (hnull : h.rmalloc size = 0)
    (hus : h.musable 0 = 0) :
    ptrOf (mallocImpl h w size) = some 0 ∧
      reservedOf (mallocImpl h w size) = some w.stats.m_reserved ∧
      totalReservedOf (mallocImpl h w size) =
        some w.stats.m_total_reserved := by
  cases hr : w.malloc_resolved <;>
    simp [ptrOf, reservedOf, totalReservedOf, mallocImpl, hp, hnull, hus,
      hr, initSafi, SafiStats.log_malloc, SafiStats.log_alloc_helper,
      toInt64_zero]

/-- Witness for C5: the failing heap, from the fully resolved world. -/
theorem C5_null_malloc_passthrough_witness :
    (readyWorld.pending_init = false ∧ failHeap.rmalloc 64 = 0 ∧
        failHeap.musable 0 = 0) ∧
      ptrOf (mallocImpl failHeap readyWorld 64) = some 0 ∧
      reservedOf (mallocImpl failHeap readyWorld 64) =
        some readyWorld.stats.m_reserved ∧
      totalReservedOf (mallocImpl failHeap readyWorld 64) =
        some readyWorld.stats.m_total_reserved :=
  ⟨⟨rfl, rfl, rfl⟩, C5_null_malloc_passthrough failHeap readyWorld 64
    rfl rfl rfl⟩

/-- C10: Freeing the null pointer once the real free is resolved: the
null pointer lies below the bootstrap buffer (`0 < temp_buffer`), so the
arena probe fails; `malloc_usable_size(NULL) = 0` is recorded, leaving
`reserved`, `total_reserved` and `freed` unchanged while `num_frees` is
incremented; and the null pointer is forwarded to the real free. -/
theorem C10_free_null (h : RealHeap) (w : World)
    (hres : w.free_resolved = true) (htb : 0 < h.tempBase)
    (hus : h.musable 0 = 0) :
    (freeImpl h w 0).2 = some 0 ∧
      (freeImpl h w 0).1.stats.m_reserved = w.stats.m_reserved ∧
      (freeImpl h w 0).1.stats.m_total_reserved =
        w.stats.m_total_reserved ∧
      (freeImpl h w 0).1.stats.m_freed = w.stats.m_freed ∧
      (freeImpl h w 0).1.stats.m_num_frees = w.stats.m_num_frees + 1 := by
  have htb0 : h.tempBase ≠ 0 := by omega
  simp [freeImpl, htb0, hres, hus, SafiStats.log_free, toInt64_zero]

/-- Witness for C10: freeing null in the fully resolved world. -/
theorem C10_free_null_witness :
    (readyWorld.free_resolved = true ∧ 0 < testHeap.tempBase ∧
        testHeap.musable 0 = 0) ∧
      (freeImpl testHeap readyWorld 0).2 = some 0 ∧
      (freeImpl testHeap readyWorld 0).1.stats.m_reserved =
        readyWorld.stats.m_reserved ∧
      (freeImpl testHeap readyWorld 0).1.stats.m_total_reserved =
        readyWorld.stats.m_total_reserved ∧
      (freeImpl testHeap readyWorld 0).1.stats.m_freed =
        readyWorld.stats.m_freed ∧
      (freeImpl testHeap readyWorld 0).1.stats.m_num_frees =
        readyWorld.stats.m_num_frees + 1 :=
  ⟨⟨rfl, by decide, by decide⟩,
    C10_free_null testHeap readyWorld rfl (by decide) (by decide)⟩

theorem toInt64_sub64 (a b : Nat) (ha : a < 2 ^ 63) (hb : b < 2 ^ 63) :
    toInt64 (sub64 a b) = (a : Int) - b := by
  unfold toInt64 sub64
  split <;> omega

/-- C8: For a resize performed while the real realloc is resolved,
`reserved` changes by exactly the (possibly negative) difference between
the post-resize and the pre-resize usable size of the block, captured
before the resize — the wrapping `size_t` subtraction the wrapper
performs, reinterpreted as `int64_t`, is that exact signed difference as
long as both usable sizes are below `2^63`. -/
theorem C8_realloc_usable_delta (h : RealHeap) (w : World) (ptr size : Nat)
    (hres : w.realloc_resolved = true)
    (hold : h.musable ptr < 2 ^ 63)
    (hnew : h.musable (h.rrealloc ptr size) < 2 ^ 63) :
    ptrOf (reallocImpl h w ptr size) = some (h.rrealloc ptr size) ∧
      reservedOf (reallocImpl h w ptr size) =
        some (w.stats.m_reserved +
          ((h.musable (h.rrealloc ptr size) : Int) -
            (h.musable ptr : Int))) := by
  simp [ptrOf, reservedOf, reallocImpl, hres, SafiStats.log_realloc,
    SafiStats.log_alloc_helper, toInt64_sub64 _ _ hnew hold]

/-- Witness for C8: resizing block 2000 (usable 64) to block 6000
(usable 256) — `reserved` grows by 192. -/
theorem C8_realloc_usable_delta_witness :
    (readyWorld.realloc_resolved = true ∧
        testHeap.musable 2000 < 2 ^ 63 ∧
        testHeap.musable (testHeap.rrealloc 2000 256) < 2 ^ 63) ∧
      ptrOf (reallocImpl testHeap readyWorld 2000 256) =
        some (testHeap.rrealloc 2000 256) ∧
      reservedOf (reallocImpl testHeap readyWorld 2000 256) =
        some (readyWorld.stats.m_reserved +
          ((testHeap.musable (testHeap.rrealloc 2000 256) : Int) -
            (testHeap.musable 2000 : Int))) :=
  ⟨⟨rfl, by decide, by decide⟩,
    C8_realloc_usable_delta testHeap readyWorld 2000 256 rfl
      (by decide) (by decide)⟩

/-- C7 counterexample: the claim quantifies over every zero-allocate call
made before the real calloc is resolved, but a call landing inside the
bootstrap window (`pending_init` — e.g. the calloc that `dlsym` itself
issues) is served by `__temp_malloc` through the `malloc` wrapper's
bootstrap branch, which records no statistics: `calloc(10, 8)` from
`bootWorld` returns the arena pointer yet leaves `m_num_mallocs` at 0,
not incremented. -/
theorem C7_bootstrap_counterexample :
    bootWorld.calloc_resolved = false ∧
      bootWorld.stats.m_num_mallocs = 0 ∧
      ptrOf (callocImpl testHeap bootWorld 10 8) = some 1000 ∧
      numMallocsOf (callocImpl testHeap bootWorld 10 8) = some 0 := by
  refine ⟨rfl, rfl, ?_, ?_⟩ <;> rfl

/-- C7 (amended): for every zero-allocate call made while the real calloc
is not yet resolved and initialization is not in progress (a call inside
the bootstrap window is served by the arena and records nothing), the
result is the pointer obtained from the `malloc` fallback, the
`num * size` bytes behind it are zero-filled, and `num_allocs` — not
`num_zero_allocs` — is incremented. -/
theorem C7_calloc_fallback (h : RealHeap) (w : World) (num size : Nat)
    (hp : w.pending_init = false) (hc : w.calloc_resolved = false)
    (hm : h.rmalloc (mul64 num size) ≠ 0) :
    ptrOf (callocImpl h w num size) = some (h.rmalloc (mul64 num size)) ∧
      (∀ a, h.rmalloc (mul64 num size) ≤ a →
        a < h.rmalloc (mul64 num size) + mul64 num size →
        memAt (callocImpl h w num size) a = some 0) ∧
      numMallocsOf (callocImpl h w num size) =
        some (w.stats.m_num_mallocs + 1) ∧
      numCallocsOf (callocImpl h w num size) =
        some w.stats.m_num_callocs := by
  cases hr : w.malloc_resolved <;>
    exact ⟨by simp [ptrOf, callocImpl, mallocImpl, hp, hc, hm, hr, initSafi],
      fun a h1 h2 => by
        simp [memAt, callocImpl, mallocImpl, hp, hc, hm, hr, initSafi,
          memset, h1, h2],
      by simp [numMallocsOf, callocImpl, mallocImpl, hp, hc, hm, hr,
        initSafi, SafiStats.log_malloc, SafiStats.log_alloc_helper],
      by simp [numCallocsOf, callocImpl, mallocImpl, hp, hc, hm, hr,
        initSafi, SafiStats.log_malloc, SafiStats.log_alloc_helper]⟩

/-- Witness for C7 (amended): `calloc(10, 8)` from the start state — the
80 bytes at the returned block 5000 are zeroed (checked here at address
5000) and `num_mallocs` rises from 0 to 1 while `num_callocs` stays 0. -/
theorem C7_calloc_fallback_witness :
    (startWorld.pending_init = false ∧
        startWorld.calloc_resolved = false ∧
        testHeap.rmalloc (mul64 10 8) ≠ 0) ∧
      ptrOf (callocImpl testHeap startWorld 10 8) =
        some (testHeap.rmalloc (mul64 10 8)) ∧
      memAt (callocImpl testHeap startWorld 10 8) 5000 = some 0 ∧
      numMallocsOf (callocImpl testHeap startWorld 10 8) =
        some (startWorld.stats.m_num_mallocs + 1) ∧
      numCallocsOf (callocImpl testHeap startWorld 10 8) =
        some startWorld.stats.m_num_callocs :=
  ⟨⟨rfl, rfl, by decide⟩,
    (C7_calloc_fallback testHeap startWorld 10 8 rfl rfl (by decide)).1,
    (C7_calloc_fallback testHeap startWorld 10 8 rfl rfl
      (by decide)).2.1 5000 (by decide) (by decide),
    (C7_calloc_fallback testHeap startWorld 10 8 rfl rfl (by decide)).2.2.1,
    (C7_calloc_fallback testHeap startWorld 10 8 rfl rfl (by decide)).2.2.2⟩

/-- C6: The reporting daemon sleeps a fixed interval of
`PRINT_FREQ_IN_SEC = 5` seconds and then reports, with the loop
condition `!isPrintEnabled()` re-read after each sleep-and-report
iteration; once the entry-point wrapper calls `disablePrint`, the daemon
is not interrupted — from any phase of its loop it finishes the current
iteration (at most sleep, report, check) and is stopped within three
steps, `stopped` being terminal. -/
theorem C6_daemon_stops (s : SafiStats) (h : s.isPrintEnabled = false) :
    PRINT_FREQ_IN_SEC = 5 ∧
      daemonStep s .check = .sleeping ∧
      daemonStep s .sleeping = .reporting ∧
      daemonStep s .reporting = .check ∧
      daemonStep s.disablePrint .check = .stopped ∧
      daemonStep s.disablePrint (daemonStep s.disablePrint
        (daemonStep s.disablePrint .sleeping)) = .stopped ∧
      daemonStep s.disablePrint (daemonStep s.disablePrint .reporting) =
        .stopped ∧
      daemonStep s.disablePrint .stopped = .stopped := by
  have hm : s.m_disable_print = false := h
  simp [daemonStep, SafiStats.isPrintEnabled, SafiStats.disablePrint,
    PRINT_FREQ_IN_SEC, hm]

/-- Witness for C6 at the zero-initialized store. -/
theorem C6_daemon_stops_witness :
    SafiStats.init.isPrintEnabled = false ∧
      (PRINT_FREQ_IN_SEC = 5 ∧
        daemonStep SafiStats.init .check = .sleeping ∧
        daemonStep SafiStats.init .sleeping = .reporting ∧
        daemonStep SafiStats.init .reporting = .check ∧
        daemonStep SafiStats.init.disablePrint .check = .stopped ∧
        daemonStep SafiStats.init.disablePrint
          (daemonStep SafiStats.init.disablePrint
            (daemonStep SafiStats.init.disablePrint .sleeping)) =
          .stopped ∧
        daemonStep SafiStats.init.disablePrint
          (daemonStep SafiStats.init.disablePrint .reporting) = .stopped ∧
        daemonStep SafiStats.init.disablePrint .stopped = .stopped) :=
  ⟨by decide, C6_daemon_stops SafiStats.init (by decide)⟩

/-- C9: The report routine scales byte values by repeated truncating
division by 1024 toward the largest unit among B, kB, MB, GB, TB; a
store whose `reserved` counter holds 5242880 bytes renders it as the
value 5 with unit label MB. -/
theorem C9_five_megabytes :
    renderSize (SafiStats.init.log_malloc 5242880).m_reserved =
      (5, "MB") := by
  decide
